import Mathlib

/-!
Verification of the trivia question query and selection engine
(`backend/flaskr/__init__.py`).

The store (`Question.query.all()`) is modelled as a `List Question` in
storage order; route handlers become pure functions over that list.  Flask
`abort(n)` becomes an `Except TriviaError` error value; a bare Python
`except:` around a block is modelled by mapping every error of the block to
the handler's outcome.  Where a claim is about JSON key names the response
is modelled as an association list of key/value pairs; elsewhere responses
are structures whose fields carry the source's key names.
-/

/-- A stored trivia question row: identifier, question text, answer text,
category identifier and difficulty, as in the data model. -/
structure Question where
  id : Nat
  question : String
  answer : String
  category : Nat
  difficulty : Nat
deriving DecidableEq

/-- A category row: identifier and display label. -/
structure Category where
  id : Nat
  type : String
deriving DecidableEq

/-- Modelled from the spec: `Question.format()` lives in `models.py`, which
is not part of the given sources; the spec says a formatted question
serializes as the record with fields id, question, answer, category,
difficulty. -/
structure FormattedQuestion where
  id : Nat
  question : String
  answer : String
  category : Nat
  difficulty : Nat
deriving DecidableEq

/-- Modelled from the spec: the formatting map itself, copying the five
content fields unchanged. -/
def Question.format (q : Question) : FormattedQuestion :=
  { id := q.id, question := q.question, answer := q.answer,
    category := q.category, difficulty := q.difficulty }

/-- The failure outcomes the routes signal via Flask `abort`:
`abort(400)`, `abort(404)`, `abort(422)`. -/
inductive TriviaError where
  | BadRequest
  | NotFound
  | Unprocessable
deriving DecidableEq

/-- A JSON scalar value, used where a claim is about response key names. -/
inductive Jval where
  | bool (b : Bool)
  | num (n : Nat)
  | str (s : String)
deriving DecidableEq

/-- `QUESTIONS_PER_PAGE = 10`. -/
def QUESTIONS_PER_PAGE : Nat := 10

/-- Embedding of `paginate_questions(request, selection)`.  The `page`
argument models `request.args.get('page', 1, type=int)`; the spec requires
callers to clamp it to at least 1, and every theorem below assumes
`1 ≤ page`, where Python's `questions[start:start+10]` with `start ≥ 0` is
`(List.drop start).take 10`. -/
def paginate_questions (page : Nat) (selection : List Question) :
    List FormattedQuestion :=
  let start := (page - 1) * QUESTIONS_PER_PAGE
  let questions := selection.map Question.format
  (questions.drop start).take QUESTIONS_PER_PAGE

/-- One atom of a regular expression: a literal character or the wildcard
dot. -/
inductive RAtom where
  | lit (c : Char)
  | dot
deriving DecidableEq

/-- Whether a regex atom matches one character under `re.IGNORECASE`:
a literal compares lowercased, the dot matches anything but a newline. -/
def atomMatch : RAtom → Char → Bool
  | RAtom.lit c, d => c.toLower == d.toLower
  | RAtom.dot, d => d != '\n'

/-- Characters that are regex metacharacters beyond the modelled subset;
patterns containing them are outside the model. -/
def unsupportedMeta (c : Char) : Bool :=
  c == '*' || c == '+' || c == '?' || c == '(' || c == ')' ||
  c == '[' || c == ']' || c == '|' || c == '^' || c == '$' ||
  c == '\\' || c.toNat == 123 || c.toNat == 125

/-- Parse one pattern character into an atom; `none` for an unsupported
metacharacter. -/
def parseAtom (c : Char) : Option RAtom :=
  if c == '.' then some RAtom.dot
  else if unsupportedMeta c then none
  else some (RAtom.lit c)

/-- Parse a pattern string into a sequence of atoms; `none` as soon as a
character outside the modelled subset appears. -/
def parsePattern : List Char → Option (List RAtom)
  | [] => some []
  | c :: rest =>
    match parseAtom c with
    | none => none
    | some a => (parsePattern rest).map (fun r => a :: r)

/-- Whether the atom sequence matches a prefix of the character list. -/
def reMatchHere : List RAtom → List Char → Bool
  | [], _ => true
  | _ :: _, [] => false
  | a :: ps, c :: cs => atomMatch a c && reMatchHere ps cs

/-- Embedding of Python `re.search(pattern, s, re.IGNORECASE)` for the
modelled pattern subset (literal characters and the dot wildcard): true iff
the atoms match starting at some position of `s`.  The empty pattern
matches every string. -/
def reSearch (r : List RAtom) : List Char → Bool
  | [] => reMatchHere r []
  | c :: cs => reMatchHere r (c :: cs) || reSearch r cs

/-- The search route's response: the source returns only the two keys
`questions` and `total_questions` (no `success` flag). -/
structure SearchResp where
  questions : List FormattedQuestion
  total_questions : Nat
deriving DecidableEq

/-- Embedding of the `search_question` route: filter the whole store by
`re.search(search_term, question.question, re.IGNORECASE)`, format the
matches in store order, and return them with their count.  The result is
`none` only when the term uses regex features outside the modelled subset.
The route has no failure path: it never aborts. -/
def search_question (store : List Question) (searchTerm : String) :
    Option SearchResp :=
  (parsePattern searchTerm.toList).map (fun r =>
    let questions :=
      (store.filter (fun q => reSearch r q.question.toList)).map
        Question.format
    { questions := questions, total_questions := questions.length })

/-- Whether the first character list is a prefix of the second. -/
def charPrefixOf : List Char → List Char → Bool
  | [], _ => true
  | _ :: _, [] => false
  | a :: as, b :: bs => a == b && charPrefixOf as bs

/-- Whether the first character list occurs as a contiguous run inside the
second. -/
def charInfixOf (t : List Char) : List Char → Bool
  | [] => t.isEmpty
  | c :: cs => charPrefixOf t (c :: cs) || charInfixOf t cs

/-- The spec's match rule, for comparison with the code: the term is
contained in the question text as a substring under a case-insensitive
comparison. -/
def substringMatchCI (term text : String) : Bool :=
  charInfixOf (term.toList.map Char.toLower) (text.toList.map Char.toLower)

/-- Embedding of the `delete_question` route.  The whole body — including
the `abort(404)` taken when no row has the identifier — sits inside
`try: ... except: abort(422)`, and Flask's `abort` raises an exception the
bare `except:` catches, so every error of the body is turned into
`Unprocessable`.  On success the route returns the keys `success`,
`deleted` and `total_books` (sic) together with the mutated store. -/
def delete_question (store : List Question) (question_id : Nat) :
    Except TriviaError (List (String × Jval) × List Question) :=
  let body : Except TriviaError (List (String × Jval) × List Question) :=
    match store.find? (fun q => q.id == question_id) with
    | none => Except.error TriviaError.NotFound
    | some _ =>
      let store' := store.eraseP (fun q => q.id == question_id)
      Except.ok
        ([("success", Jval.bool true),
          ("deleted", Jval.num question_id),
          ("total_books", Jval.num store'.length)], store')
  match body with
  | Except.error _ => Except.error TriviaError.Unprocessable
  | Except.ok r => Except.ok r

/-- The list-by-category response, fields named as the source's keys. -/
structure ByCategoryResp where
  success : Bool
  questions : List FormattedQuestion
  total_questions : Nat
  current_category : String
deriving DecidableEq

/-- Embedding of the `get_questions_by_category` route: resolve the
category (`abort(400)` when it does not exist), select the questions of
that category, paginate them, and report `len(Question.query.all())` — the
size of the whole store — as `total_questions`. -/
def get_questions_by_category (store : List Question)
    (categories : List Category) (page : Nat) (id : Nat) :
    Except TriviaError ByCategoryResp :=
  match categories.find? (fun c => c.id == id) with
  | none => Except.error TriviaError.BadRequest
  | some category =>
    let selection := store.filter (fun q => q.category == category.id)
    let paginated := paginate_questions page selection
    Except.ok
      { success := true, questions := paginated,
        total_questions := store.length,
        current_category := category.type }

/-- The candidate query of the quiz route: when `category_id` is truthy
(non-zero) filter by category and exclusion, otherwise by exclusion
alone. -/
def quiz_candidates (store : List Question) (previous_questions : List Nat)
    (category_id : Nat) : List Question :=
  if category_id != 0 then
    store.filter (fun q =>
      q.category == category_id && !(previous_questions.contains q.id))
  else
    store.filter (fun q => !(previous_questions.contains q.id))

/-- Embedding of the `get_quiz_questions` route.  `quiz_category` is the
id carried by a present, truthy `quiz_category` object (`none` models a
missing or falsy one, which the route rejects with `abort(400)`).
`order_by(func.random()).first()` is modelled as the head of `shuffle`
applied to the candidate list; theorems assume `shuffle` permutes its
input.  An empty candidate set yields the empty payload `{}`, modelled as
`Except.ok none`. -/
def get_quiz_questions (shuffle : List Question → List Question)
    (store : List Question) (previous_questions : List Nat)
    (quiz_category : Option Nat) :
    Except TriviaError (Option FormattedQuestion) :=
  match quiz_category with
  | none => Except.error TriviaError.BadRequest
  | some category_id =>
    match (shuffle
        (quiz_candidates store previous_questions category_id)).head? with
    | none => Except.ok none
    | some q => Except.ok (some q.format)

/-! Concrete fixtures used by the counterexamples and witnesses. -/

/-- A stored question in category 1. -/
def qMath : Question :=
  { id := 1, question := "What is 2+2?", answer := "4",
    category := 1, difficulty := 1 }

/-- A stored question in category 2. -/
def qGeo : Question :=
  { id := 2, question := "Capital of France?", answer := "Paris",
    category := 2, difficulty := 2 }

/-- A question whose text is plain letters, for the regex counterexample. -/
def qAbc : Question :=
  { id := 7, question := "abc", answer := "xyz",
    category := 1, difficulty := 3 }

/-- The category row with identifier 1. -/
def catMath : Category := { id := 1, type := "Math" }

/-- Claim C1: the claim says search returns exactly the questions whose
text contains the term as a case-insensitive substring.  The code instead
runs `re.search`, so the term is a regular expression: searching for the
term consisting of the single character dot includes a question whose text
is "abc", although that text does not contain a dot as a substring. -/
theorem search_regex_not_substring :
    search_question [qAbc] "." =
      some { questions := [Question.format qAbc], total_questions := 1 } ∧
    substringMatchCI "." (Question.question qAbc) = false := by
  exact ⟨rfl, rfl⟩

/-- Claim C2: the claim says a delete with an unknown identifier fails with
NotFound.  In the code the `abort(404)` sits inside the `try:` whose bare
`except:` converts every exception into `abort(422)`, so the route answers
Unprocessable instead, conflating the two failure kinds. -/
theorem delete_missing_yields_unprocessable :
    delete_question [] 1 = Except.error TriviaError.Unprocessable ∧
    delete_question [] 1 ≠ Except.error TriviaError.NotFound := by
  refine ⟨rfl, ?_⟩
  intro h
  simp [delete_question] at h

/-- The payload the delete route produces for deleting question 1 from a
store holding only that question. -/
def deleteRespEx : List (String × Jval) :=
  [("success", Jval.bool true), ("deleted", Jval.num 1),
   ("total_books", Jval.num 0)]

/-- Claim C8: the claim says the delete success payload carries the
remaining question count under the key `total_questions`.  The code emits
the count under the key `total_books`; the success flag and the deleted
identifier are present as claimed, and no `total_questions` key exists. -/
theorem delete_success_payload_uses_total_books :
    delete_question [qMath] 1 = Except.ok (deleteRespEx, []) ∧
    deleteRespEx.lookup "success" = some (Jval.bool true) ∧
    deleteRespEx.lookup "deleted" = some (Jval.num 1) ∧
    deleteRespEx.lookup "total_books" = some (Jval.num 0) ∧
    deleteRespEx.lookup "total_questions" = none := by
  exact ⟨rfl, rfl, rfl, rfl, rfl⟩

/-- Claim C3 counterexample: a search that matches nothing does not fail
with NotFound — the route returns the ordinary payload with an empty
question list and a zero count (it has no failure path at all). -/
theorem search_empty_result_counterexample :
    search_question [qMath] "zzz" =
      some { questions := [], total_questions := 0 } := by
  exact rfl

/-- Claim C3 (amended): whenever the term parses inside the modelled regex
subset and matches zero questions of the store, the search route returns
the normal payload with an empty question list and `total_questions = 0`;
no NotFound failure is reported. -/
theorem search_zero_matches_returns_empty_payload
    (store : List Question) (term : String) (r : List RAtom)
    (hp : parsePattern term.toList = some r)
    (hz : store.filter (fun q => reSearch r q.question.toList) = []) :
    search_question store term =
      some { questions := [], total_questions := 0 } := by
  unfold search_question
  rw [hp, Option.map_some', hz]
  rfl

/-- Witness for the amended claim C3 at a concrete input. -/
theorem search_zero_matches_returns_empty_payload_wit :
    search_question [] "a" = some { questions := [], total_questions := 0 } :=
  search_zero_matches_returns_empty_payload [] "a" [RAtom.lit 'a'] rfl rfl

/-- Claim C5: for every page number at least 1 with page size 10,
pagination returns the half-open slice of the formatted list starting at
`(page-1)*10`; each page holds at most 10 items, a page beyond the range
yields the empty slice, and concatenating pages 1..N reconstructs the
formatted sequence truncated to `N*10` items. -/
theorem paginate_slice_spec (sel : List Question) (page : Nat)
    (hp : 1 ≤ page) :
    paginate_questions page sel =
      ((sel.map Question.format).drop ((page - 1) * 10)).take 10 ∧
    (paginate_questions page sel).length ≤ 10 ∧
    ((sel.map Question.format).length ≤ (page - 1) * 10 →
      paginate_questions page sel = []) ∧
    ∀ N : Nat,
      ((List.range N).map (fun i => paginate_questions (i + 1) sel)).flatten
        = (sel.map Question.format).take (N * 10) := by
  refine ⟨rfl, ?_, ?_, ?_⟩
  · exact List.length_take_le 10 _
  · intro h
    show ((sel.map Question.format).drop
        ((page - 1) * QUESTIONS_PER_PAGE)).take QUESTIONS_PER_PAGE = []
    rw [List.drop_eq_nil_of_le (by simpa [QUESTIONS_PER_PAGE] using h)]
    rfl
  · intro N
    induction N with
    | zero => simp
    | succ n ih =>
      rw [List.range_succ, List.map_append, List.flatten_append, ih]
      have hpage : paginate_questions (n + 1) sel =
          ((sel.map Question.format).drop (n * 10)).take 10 := by
        unfold paginate_questions
        simp [QUESTIONS_PER_PAGE]
      simp only [List.map_cons, List.map_nil, List.flatten_cons,
        List.flatten_nil, List.append_nil, hpage]
      rw [Nat.succ_mul, List.take_add]

/-- Witness for claim C5: the hypothesis `1 ≤ page` holds at page 3 of a
two-question store, where the page-length bound follows. -/
theorem paginate_slice_spec_wit :
    (paginate_questions 3 [qMath, qGeo]).length ≤ 10 :=
  (paginate_slice_spec [qMath, qGeo] 3 (by decide)).2.1

/-- Helper: whatever permutation `order_by(func.random())` produces, an
empty candidate query makes the quiz route answer the empty payload. -/
theorem quiz_ok_none_of_nil (shuffle : List Question → List Question)
    (hsh : ∀ l, (shuffle l).Perm l) (store : List Question)
    (prev : List Nat) (cid : Nat)
    (hempty : quiz_candidates store prev cid = []) :
    get_quiz_questions shuffle store prev (some cid) = Except.ok none := by
  simp only [get_quiz_questions, hempty, (hsh []).eq_nil, List.head?_nil]

/-- Claim C6: a quiz draw whose candidate set (after the exclusion and
category filters) is empty returns the valid empty payload `{}` and never
reports a failure. -/
theorem quiz_draw_empty_candidates_ok
    (shuffle : List Question → List Question)
    (hsh : ∀ l, (shuffle l).Perm l) (store : List Question)
    (prev : List Nat) (cid : Nat)
    (hempty : quiz_candidates store prev cid = []) :
    get_quiz_questions shuffle store prev (some cid) = Except.ok none :=
  quiz_ok_none_of_nil shuffle hsh store prev cid hempty

/-- Witness for claim C6: with the only stored question already asked, the
draw returns the empty payload. -/
theorem quiz_draw_empty_candidates_ok_wit :
    get_quiz_questions id [qMath] [1] (some 0) = Except.ok none :=
  quiz_draw_empty_candidates_ok id (fun l => List.Perm.refl l) [qMath] [1] 0
    rfl

/-- Claim C7: a quiz draw carrying a category identifier of zero applies no
category filter — its candidate set is exactly the stored questions not in
the exclusion list, from all categories. -/
theorem quiz_zero_category_unfiltered (store : List Question)
    (prev : List Nat) (q : Question) :
    q ∈ quiz_candidates store prev 0 ↔ q ∈ store ∧ q.id ∉ prev := by
  simp [quiz_candidates, List.mem_filter]

/-- Unfolding equation of the quiz route for a present category object. -/
theorem get_quiz_questions_some_eq (shuffle : List Question → List Question)
    (store : List Question) (prev : List Nat) (cid : Nat) :
    get_quiz_questions shuffle store prev (some cid) =
      match (shuffle (quiz_candidates store prev cid)).head? with
      | none => Except.ok none
      | some q => Except.ok (some q.format) := rfl

/-- Claim C4: whatever permutation the random ordering produces, the quiz
draw never returns a question whose identifier is in the exclusion list,
and it returns the empty payload only when no stored question passes both
the exclusion filter and the (absent when zero) category filter. -/
theorem quiz_draw_respects_exclusion_and_exhaustion
    (shuffle : List Question → List Question)
    (hsh : ∀ l, (shuffle l).Perm l)
    (store : List Question) (prev : List Nat) (cid : Nat) :
    (∀ fq : FormattedQuestion,
      get_quiz_questions shuffle store prev (some cid) =
        Except.ok (some fq) → fq.id ∉ prev) ∧
    (get_quiz_questions shuffle store prev (some cid) = Except.ok none →
      ∀ q ∈ store, q.id ∈ prev ∨ (cid ≠ 0 ∧ q.category ≠ cid)) := by
  constructor
  · intro fq h
    rw [get_quiz_questions_some_eq] at h
    cases hls : shuffle (quiz_candidates store prev cid) with
    | nil => rw [hls] at h; simp at h
    | cons a t =>
      rw [hls] at h
      simp only [List.head?_cons, Except.ok.injEq, Option.some.injEq] at h
      have ha : a ∈ quiz_candidates store prev cid :=
        ((hsh (quiz_candidates store prev cid)).mem_iff).mp
          (by rw [hls]; exact List.mem_cons_self a t)
      have hid : a.id ∉ prev := by
        by_cases hc : cid = 0
        · subst hc
          simp only [quiz_candidates, bne_self_eq_false, Bool.false_eq_true,
            if_false, List.mem_filter, Bool.not_eq_true'] at ha
          simpa using ha.2
        · simp only [quiz_candidates, if_pos (bne_iff_ne.mpr hc),
            List.mem_filter, Bool.and_eq_true, Bool.not_eq_true'] at ha
          simpa using ha.2.2
      rw [← h]
      simpa [Question.format] using hid
  · intro h q hq
    rw [get_quiz_questions_some_eq] at h
    cases hls : shuffle (quiz_candidates store prev cid) with
    | cons a t => rw [hls] at h; simp at h
    | nil =>
      have hnil : quiz_candidates store prev cid = [] := by
        have hperm := hsh (quiz_candidates store prev cid)
        rw [hls] at hperm
        exact hperm.symm.eq_nil
      by_cases hc : cid = 0
      · subst hc
        simp only [quiz_candidates, bne_self_eq_false, Bool.false_eq_true,
          if_false, List.filter_eq_nil_iff] at hnil
        left
        have := hnil q hq
        simpa using this
      · simp only [quiz_candidates, if_pos (bne_iff_ne.mpr hc),
          List.filter_eq_nil_iff] at hnil
        have hq' := hnil q hq
        by_cases hqp : q.id ∈ prev
        · exact Or.inl hqp
        · refine Or.inr ⟨hc, ?_⟩
          intro hcat
          exact hq' (by simp [hcat, hqp])

/-- Witness for claim C4 with the identity permutation: the question drawn
from a two-question store with question 1 excluded is not an excluded
one. -/
theorem quiz_draw_respects_exclusion_and_exhaustion_wit :
    FormattedQuestion.id (Question.format qGeo) ∉ ([1] : List Nat) :=
  (quiz_draw_respects_exclusion_and_exhaustion id
    (fun l => List.Perm.refl l) [qMath, qGeo] [1] 0).1
    (Question.format qGeo) rfl

/-- Claim C9: whenever the list-by-category route resolves its category
and succeeds, the `total_questions` value it reports is the size of the
whole store (the code reports `len(Question.query.all())`), not the number
of questions in the requested category. -/
theorem by_category_total_is_global (store : List Question)
    (cats : List Category) (page : Nat) (id : Nat) (resp : ByCategoryResp)
    (h : get_questions_by_category store cats page id = Except.ok resp) :
    resp.total_questions = store.length := by
  unfold get_questions_by_category at h
  cases hf : cats.find? (fun c => c.id == id) with
  | none => rw [hf] at h; simp at h
  | some c =>
    rw [hf] at h
    simp only [Except.ok.injEq] at h
    rw [← h]

/-- Witness for claim C9: listing category 1 from a two-question store in
which only one question has category 1 still reports the global count 2. -/
theorem by_category_total_is_global_wit :
    ByCategoryResp.total_questions
      { success := true, questions := [Question.format qMath],
        total_questions := 2, current_category := "Math" } = 2 :=
  by_category_total_is_global [qMath, qGeo] [catMath] 1 1
    { success := true, questions := [Question.format qMath],
      total_questions := 2, current_category := "Math" } rfl

/-- Claim C10: a quiz draw whose present category object carries a
non-zero identifier matching no existing category (the stored questions
all referencing existing categories) is not rejected with BadRequest: it
returns the empty payload, whereas the list-by-category route rejects the
same identifier with BadRequest. -/
theorem quiz_unknown_category_empty_payload
    (shuffle : List Question → List Question)
    (hsh : ∀ l, (shuffle l).Perm l)
    (store : List Question) (cats : List Category) (prev : List Nat)
    (cid : Nat) (page : Nat)
    (hcid : cid ≠ 0)
    (href : ∀ q ∈ store, q.category ∈ cats.map Category.id)
    (hmiss : cid ∉ cats.map Category.id) :
    get_quiz_questions shuffle store prev (some cid) = Except.ok none ∧
    get_questions_by_category store cats page cid =
      Except.error TriviaError.BadRequest := by
  constructor
  · apply quiz_ok_none_of_nil shuffle hsh
    unfold quiz_candidates
    rw [if_pos (bne_iff_ne.mpr hcid)]
    rw [List.filter_eq_nil_iff]
    intro q hq
    simp only [Bool.and_eq_true, beq_iff_eq, Bool.not_eq_true', not_and]
    intro hcat
    exact absurd (hcat ▸ href q hq) hmiss
  · unfold get_questions_by_category
    have hfind : cats.find? (fun c => c.id == cid) = none := by
      rw [List.find?_eq_none]
      intro c hc
      simp only [beq_iff_eq]
      intro he
      exact hmiss (he ▸ List.mem_map_of_mem Category.id hc)
    rw [hfind]

/-- Witness for claim C10: identifier 5 names no category, the lone stored
question references category 1, and the two routes answer differently. -/
theorem quiz_unknown_category_empty_payload_wit :
    get_quiz_questions id [qMath] [] (some 5) = Except.ok none ∧
    get_questions_by_category [qMath] [catMath] 1 5 =
      Except.error TriviaError.BadRequest :=
  quiz_unknown_category_empty_payload id (fun l => List.Perm.refl l)
    [qMath] [catMath] [] 5 1 (by decide) (by decide) (by decide)
